import Mathlib

/-!
Verification development for a chatbot backend. The file models the chat
data model (chat/models.py), request validation (chat/serializers.py), the
OpenRouter service layer (chat/services.py) and the API views
(chat/views.py), and proves theorems about the send endpoint, the session
listing and the upstream error mapping.
-/

namespace Chatbot

/-- Message models one row of chat.models.ChatMessage: role is one of the
TextChoices values, session_id is the nullable correlation token, timestamp
is the auto_now_add creation instant (modelled as a Nat tick). -/
structure Message where
  id : Nat
  role : String
  content : String
  model_name : String
  session_id : Option String
  timestamp : Nat
deriving DecidableEq

/-- Store models the database table of ChatMessage rows in insertion order,
together with the next autoincrement primary key and the creation clock. -/
structure Store where
  messages : List Message
  nextId : Nat
  clock : Nat
deriving DecidableEq

/-- newMessage is the row that ChatMessage.objects.create builds from the
given field values. -/
def Store.newMessage (s : Store) (role content model_name : String)
    (session_id : Option String) : Message :=
  ⟨s.nextId, role, content, model_name, session_id, s.clock⟩

/-- create models ChatMessage.objects.create: append the new row, advance
the primary key counter and the clock. -/
def Store.create (s : Store) (role content model_name : String)
    (session_id : Option String) : Store :=
  ⟨s.messages ++ [s.newMessage role content model_name session_id],
    s.nextId + 1, s.clock + 1⟩

/-- WF captures the database invariants the ORM provides: primary keys start
at 1, rows sit in strictly increasing timestamp order, and every row has its
id below nextId and its timestamp below the clock. -/
def Store.WF (s : Store) : Prop :=
  1 ≤ s.nextId ∧
  s.messages.Pairwise (fun a b => a.timestamp < b.timestamp) ∧
  ∀ m ∈ s.messages, m.id < s.nextId ∧ m.timestamp < s.clock

instance (s : Store) : Decidable s.WF := by
  unfold Store.WF
  infer_instance

/-- orderByTimestamp models a queryset order_by on timestamp ascending. -/
def orderByTimestamp (l : List Message) : List Message :=
  List.insertionSort (fun a b => a.timestamp ≤ b.timestamp) l

/-- orderByTimestampDesc models a queryset order_by on timestamp
descending. -/
def orderByTimestampDesc (l : List Message) : List Message :=
  List.insertionSort (fun a b => b.timestamp ≤ a.timestamp) l

/-- sessionMessages is the queryset filtering rows whose session_id equals
the given token, in stored order. -/
def sessionMessages (s : Store) (sid : String) : List Message :=
  s.messages.filter (fun m => m.session_id == some sid)

/-! Serializers (chat/serializers.py). -/

/-- strip models Python str.strip and the DRF whitespace trimming, defined
over the char list underlying the string so that it is kernel reducible. -/
def strip (s : String) : String :=
  String.mk (((s.data.dropWhile Char.isWhitespace).reverse.dropWhile
    Char.isWhitespace).reverse)

/-- takeChars models Python string slicing content[:n] by code points. -/
def takeChars (s : String) (n : Nat) : String :=
  String.mk (s.data.take n)

/-- ChatRequest models the raw request body fields read by
ChatRequestSerializer; an absent field is none. -/
structure ChatRequest where
  message : Option String
  model_name : Option String
  session_id : Option String
deriving DecidableEq

/-- ValidatedData models serializer.validated_data after a successful
validation. -/
structure ValidatedData where
  message : String
  model_name : Option String
  session_id : Option String
deriving DecidableEq

/-- validateModelName models the model_name CharField: not required with
default None, max_length 100, whitespace trimmed, blank not allowed. -/
def validateModelName : Option String → Option (Option String)
  | none => some none
  | some raw =>
    if (strip raw) = "" then none
    else if 100 < (strip raw).length then none
    else some (some (strip raw))

/-- validateSessionId models the session_id CharField: not required with
default None, max_length 100, allow_blank True, whitespace trimmed; a blank
value is accepted and normalised to the empty string. -/
def validateSessionId : Option String → Option (Option String)
  | none => some none
  | some raw =>
    if (strip raw) = "" then some (some "")
    else if 100 < (strip raw).length then none
    else some (some (strip raw))

/-- runValidation models ChatRequestSerializer.is_valid together with
validate_message: message is required, trimmed, must be non empty after
trimming and at most 10000 characters; the other two fields follow their
CharField declarations. -/
def runValidation (req : ChatRequest) : Option ValidatedData :=
  match req.message with
  | none => none
  | some raw =>
    if (strip raw) = "" then none
    else if 10000 < (strip raw).length then none
    else
      match validateModelName req.model_name, validateSessionId req.session_id with
      | some mn, some sid => some ⟨(strip raw), mn, sid⟩
      | _, _ => none

/-! Service layer (chat/services.py). -/

/-- RCPair is one role/content dictionary as sent to the OpenRouter API. -/
structure RCPair where
  role : String
  content : String
deriving DecidableEq

/-- Usage models the usage block of an OpenRouter response; every field may
be absent. -/
structure Usage where
  prompt_tokens : Option Nat
  completion_tokens : Option Nat
  total_tokens : Option Nat
deriving DecidableEq

/-- MsgObj models the message object inside one choice; content may be
absent. -/
structure MsgObj where
  content : Option String
deriving DecidableEq

/-- Choice models one element of the choices array. -/
structure Choice where
  message : Option MsgObj
deriving DecidableEq

/-- ErrObj models the error object of a non 200 response body. -/
structure ErrObj where
  message : Option String
deriving DecidableEq

/-- RespData models the JSON object of an OpenRouter response restricted to
the fields the service reads; an absent field is none. -/
structure RespData where
  choices : Option (List Choice)
  model : Option String
  usage : Option Usage
  error : Option ErrObj
deriving DecidableEq

/-- Body models the raw HTTP response body: either a JSON object or a body
that response.json() fails to parse. -/
inductive Body where
  | json (data : RespData)
  | invalid
deriving DecidableEq

/-- UpstreamOutcome models the outcome of the requests.post call: an HTTP
response with a status code and a body, or one of the requests exception
classes the service catches. -/
inductive UpstreamOutcome where
  | httpResponse (status : Nat) (body : Body)
  | timeout
  | connectError
  | requestException (msg : String)
deriving DecidableEq

/-- ServiceResult models what generate_response does: return the success
dictionary, raise one of the typed OpenRouter exceptions, or let an
untyped Python exception escape (the IndexError on an empty choices
list). -/
inductive ServiceResult where
  | ok (content : String) (model : String) (usage : Usage)
  | invalidAPIKey (msg : String)
  | rateLimit (msg : String)
  | apiError (msg : String) (statusCode : Nat)
  | connectionError (msg : String)
  | pythonError (msg : String)
deriving DecidableEq

/-- isOk is true exactly on the success result. -/
def ServiceResult.isOk : ServiceResult → Bool
  | .ok .. => true
  | _ => false

/-- Service models the OpenRouterService configuration read in its
constructor; timeout is hardcoded to 60 seconds there. -/
structure Service where
  api_url : String
  api_key : String
  default_model : String
  timeout : Nat := 60
deriving DecidableEq

/-- orDefault models the Python idiom value or default, under which both
None and the empty string are falsy. -/
def orDefault (v : Option String) (d : String) : String :=
  match v with
  | none => d
  | some s => if s = "" then d else s

/-- build_messages models lines 87 to 97 of generate_response: start from an
empty list, extend with the conversation history when it is truthy, then
append the current user message. -/
def build_messages (conversation_history : List RCPair) (message : String) :
    List RCPair :=
  let messages : List RCPair := []
  let messages :=
    if conversation_history.isEmpty then messages
    else messages ++ conversation_history
  messages ++ [RCPair.mk "user" message]

/-- Payload models the JSON payload of the outbound requests.post call. -/
structure Payload where
  model : String
  messages : List RCPair
deriving DecidableEq

/-- generate_payload models the payload construction of generate_response:
resolve the effective model with the or idiom and build the outbound
messages array. -/
def generate_payload (svc : Service) (message : String)
    (model : Option String) (conversation_history : List RCPair) : Payload :=
  ⟨orDefault model svc.default_model, build_messages conversation_history message⟩

/-- generate_response models OpenRouterService.generate_response applied to
a given upstream outcome: validate the api key first, then map the HTTP
outcome exactly as the status dispatch in services.py does. A body that is
not valid JSON raises a requests JSONDecodeError, a RequestException
subclass, hence lands in the connection error branch on status 200 and in
the generic message fallback on other statuses. -/
def generate_response (svc : Service) (message : String)
    (model : Option String) (conversation_history : List RCPair)
    (outcome : UpstreamOutcome) : ServiceResult :=
  if svc.api_key = "" then
    .invalidAPIKey "OpenRouter API key is not configured. Please set OPENROUTER_API_KEY in .env"
  else
    match outcome with
    | .timeout =>
      .connectionError ("Request to OpenRouter timed out after " ++ toString svc.timeout ++ "s")
    | .connectError =>
      .connectionError "Failed to connect to OpenRouter API. Please check your internet connection."
    | .requestException m => .connectionError ("Request failed: " ++ m)
    | .httpResponse status body =>
      if status = 200 then
        match body with
        | .json data =>
          match data.choices.getD [Choice.mk none] with
          | [] => .pythonError "IndexError: list index out of range"
          | c :: _ =>
            .ok ((c.message.getD (MsgObj.mk none)).content.getD "")
              (data.model.getD (orDefault model svc.default_model))
              (data.usage.getD (Usage.mk none none none))
        | .invalid => .connectionError "Request failed: response body is not valid JSON"
      else if status = 401 then
        .invalidAPIKey "OpenRouter API key is invalid"
      else if status = 429 then
        .rateLimit "OpenRouter rate limit exceeded. Please try again later."
      else
        let error_message :=
          match body with
          | .json data =>
            (data.error.getD (ErrObj.mk none)).message.getD ("API error: " ++ toString status)
          | .invalid => "OpenRouter API error: HTTP " ++ toString status
        .apiError error_message status

/-! Views (chat/views.py). -/

/-- get_conversation_history models ChatAPIView._get_conversation_history:
filter by session, exclude the given primary key when it is truthy, take the
first 10 rows by timestamp descending, then reverse into chronological order
and project each row to a role/content pair. -/
def get_conversation_history (s : Store) (session_id : String)
    (exclude_id : Option Nat) : List RCPair :=
  let queryset := s.messages.filter (fun m => m.session_id == some session_id)
  let queryset :=
    match exclude_id with
    | some i => if i ≠ 0 then queryset.filter (fun m => m.id != i) else queryset
    | none => queryset
  let messages := (orderByTimestampDesc queryset).take 10
  messages.reverse.map (fun m => RCPair.mk m.role m.content)

/-- ResponseBody models the JSON body of the HTTP response the send view
returns: the success shape or the structured error shape. -/
inductive ResponseBody where
  | okBody (response : String) (model : String) (session_id : String)
      (history : List Message)
  | errBody (error : String) (detail : String) (code : String)
deriving DecidableEq

/-- HttpResponse pairs the HTTP status code with the response body. -/
structure HttpResponse where
  status : Nat
  body : ResponseBody
deriving DecidableEq

/-- viewServiceResult is the generate_response call the send view makes
after resolving the model and the session id and persisting the user
turn. -/
def viewServiceResult (svc : Service) (store : Store) (vd : ValidatedData)
    (outcome : UpstreamOutcome) (fresh : String) : ServiceResult :=
  let message := vd.message
  let model_name := orDefault vd.model_name svc.default_model
  let session_id := orDefault vd.session_id fresh
  let userMsg := store.newMessage "user" message model_name (some session_id)
  let store1 := store.create "user" message model_name (some session_id)
  generate_response svc message (some model_name)
    (get_conversation_history store1 session_id (some userMsg.id)) outcome

/-- postValidated models steps 2 to 6 of ChatAPIView.post after a
successful validation: resolve the model and the session id with the or
idiom, persist the user turn, call the service, persist the assistant turn
on success and return the full session history, and map each typed failure
to its structured error response. The fresh argument stands for the uuid4
value generated for an absent or blank session id. -/
def postValidated (svc : Service) (store : Store) (vd : ValidatedData)
    (outcome : UpstreamOutcome) (fresh : String) : Store × HttpResponse :=
  let message := vd.message
  let model_name := orDefault vd.model_name svc.default_model
  let session_id := orDefault vd.session_id fresh
  let store1 := store.create "user" message model_name (some session_id)
  match viewServiceResult svc store vd outcome fresh with
  | .ok content rmodel _usage =>
    let store2 := store1.create "assistant" content rmodel (some session_id)
    (store2, ⟨200, .okBody content rmodel session_id
      (orderByTimestamp (sessionMessages store2 session_id))⟩)
  | .invalidAPIKey m =>
    (store1, ⟨503, .errBody "Configuration error" m "INVALID_API_KEY"⟩)
  | .rateLimit m =>
    (store1, ⟨429, .errBody "Rate limit exceeded" m "RATE_LIMIT"⟩)
  | .connectionError m =>
    (store1, ⟨503, .errBody "Service temporarily unavailable" m "CONNECTION_ERROR"⟩)
  | .apiError m _st =>
    (store1, ⟨503, .errBody "AI service error" m "API_ERROR"⟩)
  | .pythonError _ =>
    (store1, ⟨503, .errBody "An unexpected error occurred" "Please try again later" "INTERNAL_ERROR"⟩)

/-- post models ChatAPIView.post from the raw request data: a failed
validation returns the structured 400 without touching the store, otherwise
the validated flow runs. -/
def post (svc : Service) (store : Store) (req : ChatRequest)
    (outcome : UpstreamOutcome) (fresh : String) : Store × HttpResponse :=
  match runValidation req with
  | none =>
    (store, ⟨400, .errBody "Validation failed" "serializer errors" "VALIDATION_ERROR"⟩)
  | some vd => postValidated svc store vd outcome fresh

/-- maxTs models the Max timestamp aggregate over a group of rows; every
group the view iterates over is non empty. -/
def maxTs (l : List Message) : Nat :=
  l.foldr (fun m acc => max m.timestamp acc) 0

/-- SessionEntry models one element of the session listing response. The
first_message_at aggregate the view also computes is dropped because it is
never placed in the response. -/
structure SessionEntry where
  session_id : String
  title : String
  last_message_at : Nat
  message_count : Nat
deriving DecidableEq

/-- sessionTitle models the title computation in SessionListAPIView.get:
the first user message of the session ordered by timestamp contributes the
first 50 characters of its content, with an ellipsis appended when the
content is longer; a session without a user message falls back to the
placeholder. -/
def sessionTitle (s : Store) (sid : String) : String :=
  match (orderByTimestamp (s.messages.filter
      (fun m => m.session_id == some sid && m.role == "user"))).head? with
  | none => "New Chat"
  | some m => takeChars m.content 50 ++ (if 50 < m.content.length then "..." else "")

/-- sessionListView models SessionListAPIView.get: group rows by session_id
with the Max timestamp annotation, order the groups by that annotation
descending, then skip falsy session ids and build each entry from fresh
queries for the title and the message count. -/
def sessionListView (s : Store) : List SessionEntry :=
  let groups : List (Option String × Nat) :=
    ((s.messages.map (fun m => m.session_id)).dedup).map
      (fun sid => (sid, maxTs (s.messages.filter (fun m => m.session_id == sid))))
  let sorted := List.insertionSort (fun a b => b.2 ≤ a.2) groups
  sorted.filterMap (fun g =>
    match g.1 with
    | none => none
    | some sid =>
      if sid = "" then none
      else some ⟨sid, sessionTitle s sid, g.2,
        (s.messages.filter (fun m => m.session_id == some sid)).length⟩)

/-! Infrastructure lemmas about the sort and store model. -/

theorem orderByTimestamp_length (l : List Message) :
    (orderByTimestamp l).length = l.length :=
  (List.perm_insertionSort _ l).length_eq

theorem orderByTimestamp_eq_of_sorted {l : List Message}
    (h : l.Pairwise (fun a b => a.timestamp < b.timestamp)) :
    orderByTimestamp l = l :=
  List.Sorted.insertionSort_eq (show List.Sorted _ l from h.imp fun hab => le_of_lt hab)

theorem orderedInsert_append_last {α : Type} {r : α → α → Prop} [DecidableRel r]
    (a : α) (l : List α) (h : ∀ b ∈ l, ¬ r a b) :
    l.orderedInsert r a = l ++ [a] := by
  induction l with
  | nil => rfl
  | cons b t ih =>
    have hb : ¬ r a b := h b (List.mem_cons_self b t)
    simp only [List.orderedInsert, if_neg hb, List.cons_append]
    rw [ih (fun x hx => h x (List.mem_cons_of_mem b hx))]

theorem orderByTimestampDesc_eq_reverse {l : List Message}
    (h : l.Pairwise (fun a b => a.timestamp < b.timestamp)) :
    orderByTimestampDesc l = l.reverse := by
  induction l with
  | nil => rfl
  | cons a t ih =>
    have ha : ∀ b ∈ t, a.timestamp < b.timestamp := (List.pairwise_cons.mp h).1
    have ht := (List.pairwise_cons.mp h).2
    simp only [orderByTimestampDesc, List.insertionSort] at ih ⊢
    rw [ih ht, orderedInsert_append_last, List.reverse_cons]
    intro b hb
    have := ha b (List.mem_reverse.mp hb)
    show ¬ (b.timestamp ≤ a.timestamp)
    omega

theorem reverse_take_reverse {α : Type} (l : List α) (n : Nat) :
    (l.reverse.take n).reverse = l.drop (l.length - n) := by
  rw [← List.rtake_eq_reverse_take_reverse]
  rfl

theorem sessionMessages_create (s : Store) (role content mn : String) (sid : String) :
    sessionMessages (s.create role content mn (some sid)) sid
      = sessionMessages s sid ++ [s.newMessage role content mn (some sid)] := by
  simp [sessionMessages, Store.create, List.filter_append, Store.newMessage]

theorem id_ne_nextId_of_WF {s : Store} (hwf : s.WF) :
    ∀ m ∈ s.messages, m.id ≠ s.nextId := fun m hm =>
  Nat.ne_of_lt (hwf.2.2 m hm).1

theorem le_maxTs {l : List Message} {m : Message} (hm : m ∈ l) :
    m.timestamp ≤ maxTs l := by
  induction l with
  | nil => cases hm
  | cons a t ih =>
    rcases List.mem_cons.mp hm with h | h
    · subst h; exact Nat.le_max_left _ _
    · exact le_trans (ih h) (Nat.le_max_right _ _)

theorem maxTs_mem {l : List Message} (h : l ≠ []) :
    ∃ m ∈ l, m.timestamp = maxTs l := by
  induction l with
  | nil => exact absurd rfl h
  | cons a t ih =>
    rcases List.eq_nil_or_concat t with ht | _
    · subst ht
      exact ⟨a, List.mem_cons_self _ _, by simp [maxTs]⟩
    · have ht : t ≠ [] := by rintro rfl; simp_all
      obtain ⟨m, hm, hts⟩ := ih ht
      rcases Nat.le_total (maxTs t) a.timestamp with hc | hc
      · refine ⟨a, List.mem_cons_self _ _, ?_⟩
        show a.timestamp = maxTs (a :: t)
        simp only [maxTs, List.foldr] at *
        omega
      · refine ⟨m, List.mem_cons_of_mem _ hm, ?_⟩
        show m.timestamp = maxTs (a :: t)
        simp only [maxTs, List.foldr] at *
        omega

/-! Claim theorems. -/

/-- C7: for every message and every conversation history, the outbound
message array the upstream client sends equals the history followed by one
final user entry with the given message, preserving the order of the
history and dropping nothing. -/
theorem outbound_messages_eq_history_append_user
    (svc : Service) (message : String) (model : Option String)
    (conversation_history : List RCPair) :
    (generate_payload svc message model conversation_history).messages
      = conversation_history ++ [RCPair.mk "user" message] := by
  simp only [generate_payload, build_messages]
  rcases conversation_history with _ | ⟨a, t⟩ <;> simp

/-- C5: a request whose message is missing, empty, or whitespace only is
rejected with code VALIDATION_ERROR and HTTP 400, and the store is returned
unchanged, so nothing is persisted. -/
theorem invalid_message_rejected
    (svc : Service) (store : Store) (req : ChatRequest)
    (outcome : UpstreamOutcome) (fresh : String)
    (hbad : req.message = none ∨ ∃ s, req.message = some s ∧ strip s = "") :
    post svc store req outcome fresh
      = (store, ⟨400, .errBody "Validation failed" "serializer errors"
          "VALIDATION_ERROR"⟩) := by
  have hrv : runValidation req = none := by
    rcases hbad with h | ⟨s, hs, hts⟩
    · simp [runValidation, h]
    · simp [runValidation, hs, hts]
  simp [post, hrv]

/-- Witness for C5 at a whitespace only message. -/
theorem invalid_message_rejected_witness :
    ((ChatRequest.mk (some "   ") none none).message = none ∨
      ∃ s, (ChatRequest.mk (some "   ") none none).message = some s ∧ strip s = "") ∧
    post (Service.mk "u" "k" "m" 60) (Store.mk [] 1 0)
        (ChatRequest.mk (some "   ") none none) .timeout "f"
      = (Store.mk [] 1 0, ⟨400, .errBody "Validation failed" "serializer errors"
          "VALIDATION_ERROR"⟩) :=
  ⟨Or.inr ⟨"   ", rfl, by decide⟩,
    invalid_message_rejected (Service.mk "u" "k" "m" 60) (Store.mk [] 1 0)
      (ChatRequest.mk (some "   ") none none) .timeout "f"
      (Or.inr ⟨"   ", rfl, by decide⟩)⟩

/-- C8: with no API credential configured, generate_response raises the
typed configuration failure with code INVALID_API_KEY whatever the upstream
outcome is, so no network call is needed, and the send endpoint surfaces it
per request as HTTP 503 with code INVALID_API_KEY. -/
theorem missing_key_fails_fast
    (svc : Service) (hkey : svc.api_key = "") :
    (∀ (message : String) (model : Option String) (hist : List RCPair)
        (outcome : UpstreamOutcome),
      generate_response svc message model hist outcome
        = .invalidAPIKey "OpenRouter API key is not configured. Please set OPENROUTER_API_KEY in .env")
    ∧ (∀ (store : Store) (req : ChatRequest) (vd : ValidatedData)
        (outcome : UpstreamOutcome) (fresh : String),
        runValidation req = some vd →
        (post svc store req outcome fresh).2
          = ⟨503, .errBody "Configuration error"
              "OpenRouter API key is not configured. Please set OPENROUTER_API_KEY in .env"
              "INVALID_API_KEY"⟩) := by
  constructor
  · intro message model hist outcome
    simp [generate_response, hkey]
  · intro store req vd outcome fresh hrv
    simp [post, hrv, postValidated, viewServiceResult, generate_response, hkey]

/-- Witness for C8 at an empty credential and a concrete request. -/
theorem missing_key_fails_fast_witness :
    (Service.mk "u" "" "m" 60).api_key = "" ∧
    generate_response (Service.mk "u" "" "m" 60) "hi" none [] .timeout
      = .invalidAPIKey "OpenRouter API key is not configured. Please set OPENROUTER_API_KEY in .env" ∧
    (post (Service.mk "u" "" "m" 60) (Store.mk [] 1 0)
        (ChatRequest.mk (some "hi") none none) .timeout "f").2
      = ⟨503, .errBody "Configuration error"
          "OpenRouter API key is not configured. Please set OPENROUTER_API_KEY in .env"
          "INVALID_API_KEY"⟩ :=
  ⟨rfl,
    (missing_key_fails_fast (Service.mk "u" "" "m" 60) rfl).1 "hi" none [] .timeout,
    (missing_key_fails_fast (Service.mk "u" "" "m" 60) rfl).2 (Store.mk [] 1 0)
      (ChatRequest.mk (some "hi") none none) (ValidatedData.mk "hi" none none)
      .timeout "f" (by decide)⟩

/-- C6 counterexample: an upstream response with the 2xx status 201 and a
well formed success body does not yield success; the status dispatch in
generate_response compares against exactly 200, so 201 falls through to the
generic API error branch carrying status 201. -/
theorem success_requires_exact_200_counterexample :
    generate_response (Service.mk "u" "k" "m" 60) "hi" (some "m") []
        (.httpResponse 201 (.json (RespData.mk
          (some [Choice.mk (some (MsgObj.mk (some "hello")))])
          (some "mx") (some (Usage.mk (some 1) (some 2) (some 3))) none)))
      = .apiError "API error: 201" 201 := by decide

/-- C6 amended: only upstream status exactly 200 yields success. A 200
response with a parseable JSON body whose choices list is absent or non
empty returns success with the first choice message content (defaulting to
the empty string when absent), the model id echoed from the response
(falling back to the resolved request model), and the usage block echoed
(defaulting to the empty object); a response with any other status never
returns success. -/
theorem success_on_200_with_defaults
    (svc : Service) (message : String) (model : Option String)
    (hist : List RCPair) (data : RespData) (c : Choice) (cs : List Choice)
    (hkey : svc.api_key ≠ "")
    (hch : data.choices.getD [Choice.mk none] = c :: cs) :
    generate_response svc message model hist (.httpResponse 200 (.json data))
      = .ok ((c.message.getD (MsgObj.mk none)).content.getD "")
          (data.model.getD (orDefault model svc.default_model))
          (data.usage.getD (Usage.mk none none none))
    ∧ ∀ (st : Nat) (b : Body), st ≠ 200 →
        (generate_response svc message model hist (.httpResponse st b)).isOk
          = false := by
  constructor
  · simp [generate_response, hkey, hch]
  · intro st b hst
    simp only [generate_response, if_neg hkey]
    rw [if_neg hst]
    split_ifs <;> simp [ServiceResult.isOk]

/-- Witness for the amended C6 at a concrete 200 response. -/
theorem success_on_200_with_defaults_witness :
    (Service.mk "u" "k" "m" 60).api_key ≠ "" ∧
    (RespData.mk (some [Choice.mk (some (MsgObj.mk (some "hello")))])
        (some "mx") none none).choices.getD [Choice.mk none]
      = Choice.mk (some (MsgObj.mk (some "hello"))) :: [] ∧
    (generate_response (Service.mk "u" "k" "m" 60) "hi" none []
        (.httpResponse 200 (.json (RespData.mk
          (some [Choice.mk (some (MsgObj.mk (some "hello")))])
          (some "mx") none none)))
      = .ok (((Choice.mk (some (MsgObj.mk (some "hello")))).message.getD
            (MsgObj.mk none)).content.getD "")
          ((RespData.mk (some [Choice.mk (some (MsgObj.mk (some "hello")))])
            (some "mx") none none).model.getD
              (orDefault none (Service.mk "u" "k" "m" 60).default_model))
          ((RespData.mk (some [Choice.mk (some (MsgObj.mk (some "hello")))])
            (some "mx") none none).usage.getD (Usage.mk none none none))
    ∧ ∀ (st : Nat) (b : Body), st ≠ 200 →
        (generate_response (Service.mk "u" "k" "m" 60) "hi" none []
          (.httpResponse st b)).isOk = false) :=
  ⟨by decide, by decide,
    success_on_200_with_defaults (Service.mk "u" "k" "m" 60) "hi" none []
      (RespData.mk (some [Choice.mk (some (MsgObj.mk (some "hello")))])
        (some "mx") none none)
      (Choice.mk (some (MsgObj.mk (some "hello")))) [] (by decide) (by decide)⟩

/-- C3: upstream outcomes map deterministically to stable error codes and
HTTP statuses at the endpoint: 401 yields INVALID_API_KEY with HTTP 503,
429 yields RATE_LIMIT with HTTP 429, any other non 2xx status yields
API_ERROR with HTTP 503 where the typed failure carries the upstream status
code and the parsed upstream error message (or the generic message for an
unparseable body), and timeout, connect failure or any other transport
exception yields CONNECTION_ERROR with HTTP 503. -/
theorem upstream_error_mapping
    (svc : Service) (store : Store) (req : ChatRequest) (vd : ValidatedData)
    (fresh : String) (hrv : runValidation req = some vd)
    (hkey : svc.api_key ≠ "") :
    (∀ b : Body, (post svc store req (.httpResponse 401 b) fresh).2
        = ⟨503, .errBody "Configuration error" "OpenRouter API key is invalid"
            "INVALID_API_KEY"⟩)
    ∧ (∀ b : Body, (post svc store req (.httpResponse 429 b) fresh).2
        = ⟨429, .errBody "Rate limit exceeded"
            "OpenRouter rate limit exceeded. Please try again later."
            "RATE_LIMIT"⟩)
    ∧ (∀ (st : Nat) (data : RespData), ¬ (200 ≤ st ∧ st < 300) → st ≠ 401 →
        st ≠ 429 →
        viewServiceResult svc store vd (.httpResponse st (.json data)) fresh
          = .apiError ((data.error.getD (ErrObj.mk none)).message.getD
              ("API error: " ++ toString st)) st
        ∧ (post svc store req (.httpResponse st (.json data)) fresh).2
          = ⟨503, .errBody "AI service error"
              ((data.error.getD (ErrObj.mk none)).message.getD
                ("API error: " ++ toString st)) "API_ERROR"⟩)
    ∧ (∀ st : Nat, ¬ (200 ≤ st ∧ st < 300) → st ≠ 401 → st ≠ 429 →
        (post svc store req (.httpResponse st .invalid) fresh).2
          = ⟨503, .errBody "AI service error"
              ("OpenRouter API error: HTTP " ++ toString st) "API_ERROR"⟩)
    ∧ ((post svc store req .timeout fresh).2
        = ⟨503, .errBody "Service temporarily unavailable"
            ("Request to OpenRouter timed out after " ++ toString svc.timeout ++ "s")
            "CONNECTION_ERROR"⟩)
    ∧ ((post svc store req .connectError fresh).2
        = ⟨503, .errBody "Service temporarily unavailable"
            "Failed to connect to OpenRouter API. Please check your internet connection."
            "CONNECTION_ERROR"⟩)
    ∧ (∀ m : String, (post svc store req (.requestException m) fresh).2
        = ⟨503, .errBody "Service temporarily unavailable"
            ("Request failed: " ++ m) "CONNECTION_ERROR"⟩) := by
  refine ⟨?_, ?_, ?_, ?_, ?_, ?_, ?_⟩
  · intro b
    simp [post, hrv, postValidated, viewServiceResult, generate_response, hkey]
  · intro b
    simp [post, hrv, postValidated, viewServiceResult, generate_response, hkey]
  · intro st data h2xx h401 h429
    have hst : st ≠ 200 := by omega
    constructor
    · simp [viewServiceResult, generate_response, hkey, hst, h401, h429]
    · simp [post, hrv, postValidated, viewServiceResult, generate_response,
        hkey, hst, h401, h429]
  · intro st h2xx h401 h429
    have hst : st ≠ 200 := by omega
    simp [post, hrv, postValidated, viewServiceResult, generate_response,
      hkey, hst, h401, h429]
  · simp [post, hrv, postValidated, viewServiceResult, generate_response, hkey]
  · simp [post, hrv, postValidated, viewServiceResult, generate_response, hkey]
  · intro m
    simp [post, hrv, postValidated, viewServiceResult, generate_response, hkey]

/-- Witness for C3 at a concrete valid request with a configured key. -/
theorem upstream_error_mapping_witness :
    runValidation (ChatRequest.mk (some "hi") none none)
      = some (ValidatedData.mk "hi" none none) ∧
    (Service.mk "u" "k" "m" 60).api_key ≠ "" ∧
    ((post (Service.mk "u" "k" "m" 60) (Store.mk [] 1 0)
        (ChatRequest.mk (some "hi") none none) (.httpResponse 401 .invalid) "f").2
      = ⟨503, .errBody "Configuration error" "OpenRouter API key is invalid"
          "INVALID_API_KEY"⟩) ∧
    ((post (Service.mk "u" "k" "m" 60) (Store.mk [] 1 0)
        (ChatRequest.mk (some "hi") none none) (.httpResponse 429 .invalid) "f").2
      = ⟨429, .errBody "Rate limit exceeded"
          "OpenRouter rate limit exceeded. Please try again later." "RATE_LIMIT"⟩) ∧
    ((post (Service.mk "u" "k" "m" 60) (Store.mk [] 1 0)
        (ChatRequest.mk (some "hi") none none) (.httpResponse 500 .invalid) "f").2
      = ⟨503, .errBody "AI service error"
          ("OpenRouter API error: HTTP " ++ toString (500 : Nat)) "API_ERROR"⟩) ∧
    ((post (Service.mk "u" "k" "m" 60) (Store.mk [] 1 0)
        (ChatRequest.mk (some "hi") none none) .timeout "f").2
      = ⟨503, .errBody "Service temporarily unavailable"
          ("Request to OpenRouter timed out after "
            ++ toString (Service.mk "u" "k" "m" 60).timeout ++ "s")
          "CONNECTION_ERROR"⟩) := by
  have h := upstream_error_mapping (Service.mk "u" "k" "m" 60) (Store.mk [] 1 0)
    (ChatRequest.mk (some "hi") none none) (ValidatedData.mk "hi" none none) "f"
    (by decide) (by decide)
  exact ⟨by decide, by decide, h.1 .invalid, h.2.1 .invalid,
    h.2.2.2.1 500 (by omega) (by omega) (by omega), h.2.2.2.2.1⟩

/-- orDefault applied to its own result is idempotent with the same
default. -/
theorem orDefault_idem (v : Option String) (d : String) :
    orDefault (some (orDefault v d)) d = orDefault v d := by
  rcases v with _ | s <;> simp only [orDefault] <;> split_ifs <;> simp_all

/-- postValidated on a successful upstream 200 response: the user turn and
the assistant turn are appended and the response carries the extracted
content, the echoed model, the resolved session id and the reread session
history. -/
theorem postValidated_success
    (svc : Service) (store : Store) (vd : ValidatedData) (fresh : String)
    (data : RespData) (c : Choice) (cs : List Choice)
    (hkey : svc.api_key ≠ "")
    (hch : data.choices.getD [Choice.mk none] = c :: cs) :
    postValidated svc store vd (.httpResponse 200 (.json data)) fresh
      = ((store.create "user" vd.message
            (orDefault vd.model_name svc.default_model)
            (some (orDefault vd.session_id fresh))).create "assistant"
            ((c.message.getD (MsgObj.mk none)).content.getD "")
            (data.model.getD (orDefault vd.model_name svc.default_model))
            (some (orDefault vd.session_id fresh)),
          ⟨200, .okBody ((c.message.getD (MsgObj.mk none)).content.getD "")
            (data.model.getD (orDefault vd.model_name svc.default_model))
            (orDefault vd.session_id fresh)
            (orderByTimestamp (sessionMessages
              ((store.create "user" vd.message
                (orDefault vd.model_name svc.default_model)
                (some (orDefault vd.session_id fresh))).create "assistant"
                ((c.message.getD (MsgObj.mk none)).content.getD "")
                (data.model.getD (orDefault vd.model_name svc.default_model))
                (some (orDefault vd.session_id fresh)))
              (orDefault vd.session_id fresh)))⟩) := by
  simp [postValidated, viewServiceResult, generate_response, hkey, hch,
    orDefault_idem]

/-- C1: for a valid request, when the upstream call succeeds the endpoint
persists exactly two new messages under the resolved session id, first a
user turn carrying the validated message, then an assistant turn, and the
history array of the returned body has length equal to the total message
count of the session after the call. -/
theorem send_success_two_new_messages
    (svc : Service) (store : Store) (req : ChatRequest) (vd : ValidatedData)
    (fresh : String) (data : RespData) (c : Choice) (cs : List Choice)
    (hrv : runValidation req = some vd)
    (hkey : svc.api_key ≠ "")
    (hch : data.choices.getD [Choice.mk none] = c :: cs) :
    ∃ u a : Message,
      u.role = "user" ∧ u.content = vd.message ∧
      u.session_id = some (orDefault vd.session_id fresh) ∧
      a.role = "assistant" ∧
      a.session_id = some (orDefault vd.session_id fresh) ∧
      sessionMessages (post svc store req (.httpResponse 200 (.json data)) fresh).1
          (orDefault vd.session_id fresh)
        = sessionMessages store (orDefault vd.session_id fresh) ++ [u, a] ∧
      ∃ content rmodel hist,
        (post svc store req (.httpResponse 200 (.json data)) fresh).2
          = ⟨200, .okBody content rmodel (orDefault vd.session_id fresh) hist⟩ ∧
        hist.length
          = (sessionMessages
              (post svc store req (.httpResponse 200 (.json data)) fresh).1
              (orDefault vd.session_id fresh)).length := by
  have hpost : post svc store req (.httpResponse 200 (.json data)) fresh
      = postValidated svc store vd (.httpResponse 200 (.json data)) fresh := by
    simp [post, hrv]
  rw [hpost, postValidated_success svc store vd fresh data c cs hkey hch]
  refine ⟨store.newMessage "user" vd.message
      (orDefault vd.model_name svc.default_model)
      (some (orDefault vd.session_id fresh)),
    (store.create "user" vd.message
      (orDefault vd.model_name svc.default_model)
      (some (orDefault vd.session_id fresh))).newMessage "assistant"
      ((c.message.getD (MsgObj.mk none)).content.getD "")
      (data.model.getD (orDefault vd.model_name svc.default_model))
      (some (orDefault vd.session_id fresh)),
    rfl, rfl, rfl, rfl, rfl, ?_, ?_⟩
  · rw [sessionMessages_create, sessionMessages_create, List.append_assoc]
    rfl
  · exact ⟨_, _, _, rfl, orderByTimestamp_length _⟩

/-- Witness for C1 at a concrete request and 200 response. -/
theorem send_success_two_new_messages_witness :
    runValidation (ChatRequest.mk (some "hi") none none)
      = some (ValidatedData.mk "hi" none none) ∧
    (Service.mk "u" "k" "m" 60).api_key ≠ "" ∧
    (RespData.mk (some [Choice.mk (some (MsgObj.mk (some "hey")))])
        none none none).choices.getD [Choice.mk none]
      = Choice.mk (some (MsgObj.mk (some "hey"))) :: [] ∧
    ∃ u a : Message,
      u.role = "user" ∧ u.content = (ValidatedData.mk "hi" none none).message ∧
      u.session_id = some (orDefault (ValidatedData.mk "hi" none none).session_id "f") ∧
      a.role = "assistant" ∧
      a.session_id = some (orDefault (ValidatedData.mk "hi" none none).session_id "f") ∧
      sessionMessages (post (Service.mk "u" "k" "m" 60) (Store.mk [] 1 0)
          (ChatRequest.mk (some "hi") none none)
          (.httpResponse 200 (.json (RespData.mk
            (some [Choice.mk (some (MsgObj.mk (some "hey")))]) none none none)))
          "f").1
          (orDefault (ValidatedData.mk "hi" none none).session_id "f")
        = sessionMessages (Store.mk [] 1 0)
            (orDefault (ValidatedData.mk "hi" none none).session_id "f") ++ [u, a] ∧
      ∃ content rmodel hist,
        (post (Service.mk "u" "k" "m" 60) (Store.mk [] 1 0)
          (ChatRequest.mk (some "hi") none none)
          (.httpResponse 200 (.json (RespData.mk
            (some [Choice.mk (some (MsgObj.mk (some "hey")))]) none none none)))
          "f").2
          = ⟨200, .okBody content rmodel
              (orDefault (ValidatedData.mk "hi" none none).session_id "f") hist⟩ ∧
        hist.length
          = (sessionMessages (post (Service.mk "u" "k" "m" 60) (Store.mk [] 1 0)
              (ChatRequest.mk (some "hi") none none)
              (.httpResponse 200 (.json (RespData.mk
                (some [Choice.mk (some (MsgObj.mk (some "hey")))]) none none none)))
              "f").1
              (orDefault (ValidatedData.mk "hi" none none).session_id "f")).length :=
  ⟨by decide, by decide, by decide,
    send_success_two_new_messages (Service.mk "u" "k" "m" 60) (Store.mk [] 1 0)
      (ChatRequest.mk (some "hi") none none) (ValidatedData.mk "hi" none none)
      "f" (RespData.mk (some [Choice.mk (some (MsgObj.mk (some "hey")))]) none none none)
      (Choice.mk (some (MsgObj.mk (some "hey")))) [] (by decide) (by decide) (by decide)⟩

/-- C2: for every upstream failure of any kind after a successful
validation, the endpoint persists no assistant turn, leaving the session
with exactly the already written user turn appended, and returns a
structured error body with error, detail and code fields instead of
propagating the exception. -/
theorem upstream_failure_no_assistant_turn
    (svc : Service) (store : Store) (req : ChatRequest) (vd : ValidatedData)
    (outcome : UpstreamOutcome) (fresh : String)
    (hrv : runValidation req = some vd)
    (hfail : (viewServiceResult svc store vd outcome fresh).isOk = false) :
    sessionMessages (post svc store req outcome fresh).1
        (orDefault vd.session_id fresh)
      = sessionMessages store (orDefault vd.session_id fresh)
        ++ [store.newMessage "user" vd.message
              (orDefault vd.model_name svc.default_model)
              (some (orDefault vd.session_id fresh))]
    ∧ ∃ e d cd, (post svc store req outcome fresh).2.body = .errBody e d cd := by
  have hpost : post svc store req outcome fresh
      = postValidated svc store vd outcome fresh := by simp [post, hrv]
  rw [hpost]
  rcases h : viewServiceResult svc store vd outcome fresh with
    ⟨cnt, mo, us⟩ | m | m | ⟨m, st⟩ | m | m
  · rw [h] at hfail
    simp [ServiceResult.isOk] at hfail
  all_goals
    simp only [postValidated, h]
    exact ⟨sessionMessages_create store "user" vd.message
      (orDefault vd.model_name svc.default_model)
      (orDefault vd.session_id fresh), _, _, _, rfl⟩

/-- Witness for C2 at a concrete upstream timeout. -/
theorem upstream_failure_no_assistant_turn_witness :
    runValidation (ChatRequest.mk (some "hi") none none)
      = some (ValidatedData.mk "hi" none none) ∧
    (viewServiceResult (Service.mk "u" "k" "m" 60) (Store.mk [] 1 0)
        (ValidatedData.mk "hi" none none) .timeout "f").isOk = false ∧
    (sessionMessages (post (Service.mk "u" "k" "m" 60) (Store.mk [] 1 0)
        (ChatRequest.mk (some "hi") none none) .timeout "f").1
        (orDefault (ValidatedData.mk "hi" none none).session_id "f")
      = sessionMessages (Store.mk [] 1 0)
          (orDefault (ValidatedData.mk "hi" none none).session_id "f")
        ++ [(Store.mk [] 1 0).newMessage "user"
              (ValidatedData.mk "hi" none none).message
              (orDefault (ValidatedData.mk "hi" none none).model_name
                (Service.mk "u" "k" "m" 60).default_model)
              (some (orDefault (ValidatedData.mk "hi" none none).session_id "f"))]
    ∧ ∃ e d cd, (post (Service.mk "u" "k" "m" 60) (Store.mk [] 1 0)
        (ChatRequest.mk (some "hi") none none) .timeout "f").2.body
        = .errBody e d cd) :=
  ⟨by decide, by decide,
    upstream_failure_no_assistant_turn (Service.mk "u" "k" "m" 60)
      (Store.mk [] 1 0) (ChatRequest.mk (some "hi") none none)
      (ValidatedData.mk "hi" none none) .timeout "f" (by decide) (by decide)⟩

/-- C4: the context window built right after the user turn is written is
exactly the most recent 10 messages the session held before the write,
oldest first, projected to role and content pairs; its length is the
minimum of 10 and the number of prior session messages. -/
theorem context_window_is_last_ten
    (store : Store) (hwf : store.WF) (sid message mn : String) :
    get_conversation_history
        (store.create "user" message mn (some sid)) sid
        (some (store.newMessage "user" message mn (some sid)).id)
      = ((sessionMessages store sid).drop
            ((sessionMessages store sid).length - 10)).map
          (fun m => RCPair.mk m.role m.content)
    ∧ (get_conversation_history
          (store.create "user" message mn (some sid)) sid
          (some (store.newMessage "user" message mn (some sid)).id)).length
        = min 10 (sessionMessages store sid).length := by
  have hne : (store.newMessage "user" message mn (some sid)).id ≠ 0 := by
    have := hwf.1
    simp only [Store.newMessage]
    omega
  have hfilter : ((store.create "user" message mn (some sid)).messages.filter
        (fun m => m.session_id == some sid)).filter
        (fun m => m.id != (store.newMessage "user" message mn (some sid)).id)
      = sessionMessages store sid := by
    have hmem : ∀ m ∈ sessionMessages store sid,
        (m.id != (store.newMessage "user" message mn (some sid)).id) = true := by
      intro m hm
      have hms : m ∈ store.messages := List.mem_of_mem_filter hm
      have := (hwf.2.2 m hms).1
      simp only [Store.newMessage, bne_iff_ne, ne_eq]
      omega
    calc ((store.create "user" message mn (some sid)).messages.filter
          (fun m => m.session_id == some sid)).filter
          (fun m => m.id != (store.newMessage "user" message mn (some sid)).id)
        = (sessionMessages store sid
            ++ [store.newMessage "user" message mn (some sid)]).filter
            (fun m => m.id != (store.newMessage "user" message mn (some sid)).id) := by
          rw [show (store.create "user" message mn (some sid)).messages.filter
              (fun m => m.session_id == some sid)
            = sessionMessages (store.create "user" message mn (some sid)) sid from rfl]
          rw [sessionMessages_create]
      _ = sessionMessages store sid := by
          rw [List.filter_append]
          have hu : List.filter
              (fun m => m.id != (store.newMessage "user" message mn (some sid)).id)
              [store.newMessage "user" message mn (some sid)] = [] := by
            simp
          rw [hu, List.append_nil]
          exact List.filter_eq_self.mpr hmem
  have hsorted : (sessionMessages store sid).Pairwise
      (fun a b => a.timestamp < b.timestamp) :=
    hwf.2.1.sublist (List.filter_sublist _)
  have hdesc : orderByTimestampDesc (sessionMessages store sid)
      = (sessionMessages store sid).reverse :=
    orderByTimestampDesc_eq_reverse hsorted
  have hmain : get_conversation_history
        (store.create "user" message mn (some sid)) sid
        (some (store.newMessage "user" message mn (some sid)).id)
      = ((sessionMessages store sid).drop
            ((sessionMessages store sid).length - 10)).map
          (fun m => RCPair.mk m.role m.content) := by
    simp only [get_conversation_history, if_pos hne, hfilter, hdesc]
    rw [reverse_take_reverse]
  refine ⟨hmain, ?_⟩
  rw [hmain, List.length_map, List.length_drop]
  omega

/-- Witness for C4 at a store holding 12 session messages. -/
theorem context_window_is_last_ten_witness :
    (Store.mk ((List.range 12).map
        (fun i => Message.mk (i + 1) "user" (toString i) "m" (some "s") i))
      13 12).WF ∧
    (get_conversation_history
        ((Store.mk ((List.range 12).map
            (fun i => Message.mk (i + 1) "user" (toString i) "m" (some "s") i))
          13 12).create "user" "hi" "m" (some "s")) "s"
        (some ((Store.mk ((List.range 12).map
            (fun i => Message.mk (i + 1) "user" (toString i) "m" (some "s") i))
          13 12).newMessage "user" "hi" "m" (some "s")).id)
      = ((sessionMessages (Store.mk ((List.range 12).map
            (fun i => Message.mk (i + 1) "user" (toString i) "m" (some "s") i))
          13 12) "s").drop
            ((sessionMessages (Store.mk ((List.range 12).map
              (fun i => Message.mk (i + 1) "user" (toString i) "m" (some "s") i))
            13 12) "s").length - 10)).map
          (fun m => RCPair.mk m.role m.content)
    ∧ (get_conversation_history
          ((Store.mk ((List.range 12).map
              (fun i => Message.mk (i + 1) "user" (toString i) "m" (some "s") i))
            13 12).create "user" "hi" "m" (some "s")) "s"
          (some ((Store.mk ((List.range 12).map
              (fun i => Message.mk (i + 1) "user" (toString i) "m" (some "s") i))
            13 12).newMessage "user" "hi" "m" (some "s")).id)).length
        = min 10 (sessionMessages (Store.mk ((List.range 12).map
            (fun i => Message.mk (i + 1) "user" (toString i) "m" (some "s") i))
          13 12) "s").length) :=
  ⟨by decide,
    context_window_is_last_ten (Store.mk ((List.range 12).map
        (fun i => Message.mk (i + 1) "user" (toString i) "m" (some "s") i))
      13 12) (by decide) "s" "hi" "m"⟩

/-- C10: a request whose session_id is the empty string, which the
validator accepts through allow_blank, is treated by the orchestrator
exactly like an absent session_id: the whole behaviour is identical, the
empty string resolves to the freshly generated uuid, every newly persisted
turn carries the generated id and never the empty string, and a success
response echoes the generated id. -/
theorem blank_session_id_like_absent
    (svc : Service) (store : Store) (vd : ValidatedData)
    (outcome : UpstreamOutcome) (fresh : String) (hfresh : fresh ≠ "") :
    (∀ m : String, strip m ≠ "" → (strip m).length ≤ 10000 →
        runValidation (ChatRequest.mk (some m) none (some ""))
          = some (ValidatedData.mk (strip m) none (some "")))
    ∧ postValidated svc store { vd with session_id := some "" } outcome fresh
        = postValidated svc store { vd with session_id := none } outcome fresh
    ∧ orDefault (some "") fresh = fresh
    ∧ (∀ m ∈ (postValidated svc store { vd with session_id := some "" }
          outcome fresh).1.messages,
        m ∈ store.messages
          ∨ (m.session_id = some fresh ∧ m.session_id ≠ some ""))
    ∧ (∀ content rmodel sid hist,
        (postValidated svc store { vd with session_id := some "" }
          outcome fresh).2.body = .okBody content rmodel sid hist →
        sid = fresh) := by
  have hblank : strip "" = "" := by decide
  have hsid : orDefault (some "") fresh = fresh := by simp [orDefault]
  refine ⟨?_, ?_, hsid, ?_, ?_⟩
  · intro m h1 h2
    have h2n : ¬ (10000 < (strip m).length) := by omega
    simp [runValidation, validateModelName, validateSessionId, h1, h2n, hblank]
  · show postValidated svc store ⟨vd.message, vd.model_name, some ""⟩ outcome fresh
        = postValidated svc store ⟨vd.message, vd.model_name, none⟩ outcome fresh
    simp only [postValidated, viewServiceResult, hsid]
    rfl
  · intro m hm
    rcases h : viewServiceResult svc store { vd with session_id := some "" }
        outcome fresh with ⟨cnt, mo, us⟩ | x | x | ⟨x, st⟩ | x | x
    · simp only [postValidated, h, Store.create, List.mem_append,
        List.mem_singleton] at hm
      rcases hm with (hm | rfl) | rfl
      · exact Or.inl hm
      · refine Or.inr ⟨?_, ?_⟩ <;> simp [Store.newMessage, hsid, hfresh]
      · refine Or.inr ⟨?_, ?_⟩ <;> simp [Store.newMessage, hsid, hfresh]
    all_goals
      simp only [postValidated, h, Store.create, List.mem_append,
        List.mem_singleton] at hm
      rcases hm with hm | rfl
      · exact Or.inl hm
      · refine Or.inr ⟨?_, ?_⟩ <;> simp [Store.newMessage, hsid, hfresh]
  · intro content rmodel sid hist hbody
    rcases h : viewServiceResult svc store { vd with session_id := some "" }
        outcome fresh with ⟨cnt, mo, us⟩ | x | x | ⟨x, st⟩ | x | x <;>
      simp only [postValidated, h] at hbody <;>
      first
        | (injection hbody with h1 h2 h3 h4; exact h3.symm.trans hsid)
        | cases hbody

/-- Witness for C10 at a concrete validated request and outcome. -/
theorem blank_session_id_like_absent_witness :
    ("f" : String) ≠ "" ∧
    ((∀ m : String, strip m ≠ "" → (strip m).length ≤ 10000 →
        runValidation (ChatRequest.mk (some m) none (some ""))
          = some (ValidatedData.mk (strip m) none (some "")))
    ∧ postValidated (Service.mk "u" "k" "m" 60) (Store.mk [] 1 0)
        { ValidatedData.mk "hi" none none with session_id := some "" } .timeout "f"
        = postValidated (Service.mk "u" "k" "m" 60) (Store.mk [] 1 0)
            { ValidatedData.mk "hi" none none with session_id := none } .timeout "f"
    ∧ orDefault (some "") "f" = "f"
    ∧ (∀ m ∈ (postValidated (Service.mk "u" "k" "m" 60) (Store.mk [] 1 0)
          { ValidatedData.mk "hi" none none with session_id := some "" }
          .timeout "f").1.messages,
        m ∈ (Store.mk [] 1 0).messages
          ∨ (m.session_id = some "f" ∧ m.session_id ≠ some ""))
    ∧ (∀ content rmodel sid hist,
        (postValidated (Service.mk "u" "k" "m" 60) (Store.mk [] 1 0)
          { ValidatedData.mk "hi" none none with session_id := some "" }
          .timeout "f").2.body = .okBody content rmodel sid hist →
        sid = "f")) :=
  ⟨by decide,
    blank_session_id_like_absent (Service.mk "u" "k" "m" 60) (Store.mk [] 1 0)
      (ValidatedData.mk "hi" none none) .timeout "f" (by decide)⟩

/-- Membership characterisation for the session listing: every entry comes
from a group with a non falsy session id that occurs in the table, and its
fields are the title, the Max timestamp aggregate and the count computed
for that session. -/
theorem mem_sessionListView {s : Store} {e : SessionEntry}
    (he : e ∈ sessionListView s) :
    e.session_id ≠ "" ∧
    (some e.session_id) ∈ s.messages.map (fun m => m.session_id) ∧
    e.title = sessionTitle s e.session_id ∧
    e.last_message_at = maxTs (sessionMessages s e.session_id) ∧
    e.message_count = (sessionMessages s e.session_id).length := by
  simp only [sessionListView, List.mem_filterMap] at he
  obtain ⟨g, hg, hfg⟩ := he
  have hg2 : g ∈ ((s.messages.map (fun m => m.session_id)).dedup).map
      (fun sid => (sid, maxTs (s.messages.filter (fun m => m.session_id == sid)))) :=
    (List.perm_insertionSort _ _).mem_iff.mp hg
  obtain ⟨sid0, hsid0, rfl⟩ := List.mem_map.mp hg2
  rcases sid0 with _ | sid
  · cases hfg
  · dsimp only at hfg
    by_cases hb : sid = ""
    · rw [if_pos hb] at hfg
      cases hfg
    · rw [if_neg hb] at hfg
      obtain rfl := Option.some.inj hfg
      refine ⟨hb, List.mem_dedup.mp hsid0, rfl, rfl, rfl⟩

/-- Title computation of the session listing, characterised on the
underlying table: under the store invariants the first user message by
timestamp is the head of the filtered table. -/
theorem sessionTitle_spec (s : Store) (hwf : s.WF) (sid : String) :
    (s.messages.filter
        (fun m => m.session_id == some sid && m.role == "user") = [] →
      sessionTitle s sid = "New Chat")
    ∧ ∀ u us, s.messages.filter
        (fun m => m.session_id == some sid && m.role == "user") = u :: us →
      sessionTitle s sid = takeChars u.content 50
        ++ (if 50 < u.content.length then "..." else "") := by
  have hsorted : (s.messages.filter
      (fun m => m.session_id == some sid && m.role == "user")).Pairwise
      (fun a b => a.timestamp < b.timestamp) :=
    hwf.2.1.sublist (List.filter_sublist _)
  have hord := orderByTimestamp_eq_of_sorted hsorted
  constructor
  · intro h
    rw [h] at hord
    simp [sessionTitle, h, hord]
  · intro u us h
    rw [h] at hord
    simp [sessionTitle, h, hord]

/-- C9: the session listing contains only entries for real non null session
ids, is ordered by most recent message timestamp descending, reports each
session message count and maximal timestamp, and derives each title from
the first user message truncated to its first 50 characters with an
ellipsis appended when longer, falling back to the placeholder when the
session has no user message. -/
theorem session_listing_correct (s : Store) (hwf : s.WF) :
    (∀ e ∈ sessionListView s, e.session_id ≠ "" ∧
        ∃ m ∈ s.messages, m.session_id = some e.session_id)
    ∧ (sessionListView s).Pairwise
        (fun a b => b.last_message_at ≤ a.last_message_at)
    ∧ (∀ e ∈ sessionListView s,
        e.message_count = (sessionMessages s e.session_id).length
        ∧ (∀ m ∈ sessionMessages s e.session_id,
            m.timestamp ≤ e.last_message_at)
        ∧ (∃ m ∈ sessionMessages s e.session_id,
            m.timestamp = e.last_message_at))
    ∧ (∀ e ∈ sessionListView s,
        (s.messages.filter
            (fun m => m.session_id == some e.session_id && m.role == "user")
            = [] →
          e.title = "New Chat")
        ∧ ∀ u us, s.messages.filter
            (fun m => m.session_id == some e.session_id && m.role == "user")
            = u :: us →
          e.title = takeChars u.content 50
            ++ (if 50 < u.content.length then "..." else "")) := by
  refine ⟨?_, ?_, ?_, ?_⟩
  · intro e he
    obtain ⟨hne, hmem, _, _, _⟩ := mem_sessionListView he
    obtain ⟨m, hm, hms⟩ := List.mem_map.mp hmem
    exact ⟨hne, m, hm, hms⟩
  · have hpair : (List.insertionSort
        (fun a b : Option String × Nat => b.2 ≤ a.2)
        (((s.messages.map (fun m => m.session_id)).dedup).map
          (fun sid => (sid, maxTs (s.messages.filter
            (fun m => m.session_id == sid)))))).Pairwise
        (fun a b : Option String × Nat => b.2 ≤ a.2) := by
      haveI : IsTotal (Option String × Nat) (fun a b => b.2 ≤ a.2) :=
        ⟨fun a b => Nat.le_total b.2 a.2⟩
      haveI : IsTrans (Option String × Nat) (fun a b => b.2 ≤ a.2) :=
        ⟨fun a b c hab hbc => Nat.le_trans hbc hab⟩
      exact List.sorted_insertionSort _ _
    simp only [sessionListView]
    refine hpair.filterMap _ ?_
    rintro ⟨osid, ts⟩ ⟨osid2, ts2⟩ hle x hx y hy
    rcases osid with _ | sid
    · simp at hx
    rcases osid2 with _ | sid2
    · simp at hy
    by_cases hb : sid = ""
    · simp [hb] at hx
    by_cases hb2 : sid2 = ""
    · simp [hb2] at hy
    simp only [Option.mem_def, if_neg hb, if_neg hb2, Option.some.injEq] at hx hy
    rw [← hx, ← hy]
    exact hle
  · intro e he
    obtain ⟨_, hmem, _, hlast, hcount⟩ := mem_sessionListView he
    have hnonempty : sessionMessages s e.session_id ≠ [] := by
      obtain ⟨m, hm, hms⟩ := List.mem_map.mp hmem
      intro hnil
      have hmf : m ∈ sessionMessages s e.session_id := by
        simp [sessionMessages, List.mem_filter, hm, hms]
      rw [hnil] at hmf
      cases hmf
    refine ⟨hcount, ?_, ?_⟩
    · intro m hm
      rw [hlast]
      exact le_maxTs hm
    · obtain ⟨m, hm, hts⟩ := maxTs_mem hnonempty
      exact ⟨m, hm, by rw [hlast]; exact hts⟩
  · intro e he
    obtain ⟨_, _, htitle, _, _⟩ := mem_sessionListView he
    have hspec := sessionTitle_spec s hwf e.session_id
    exact ⟨fun h => htitle.trans (hspec.1 h),
      fun u us h => htitle.trans (hspec.2 u us h)⟩

/-- exampleStore is a concrete table used as a witness fixture: two turns
in one session and one ungrouped row without a session id. -/
def exampleStore : Store :=
  Store.mk
    [Message.mk 1 "user" "hello" "m" (some "s1") 0,
     Message.mk 2 "assistant" "hi there" "m" (some "s1") 1,
     Message.mk 3 "user" "x" "m" none 2]
    4 3

/-- Witness for C9 at the example store. -/
theorem session_listing_correct_witness :
    exampleStore.WF ∧
    ((∀ e ∈ sessionListView exampleStore, e.session_id ≠ "" ∧
        ∃ m ∈ exampleStore.messages, m.session_id = some e.session_id)
    ∧ (sessionListView exampleStore).Pairwise
        (fun a b => b.last_message_at ≤ a.last_message_at)
    ∧ (∀ e ∈ sessionListView exampleStore,
        e.message_count = (sessionMessages exampleStore e.session_id).length
        ∧ (∀ m ∈ sessionMessages exampleStore e.session_id,
            m.timestamp ≤ e.last_message_at)
        ∧ (∃ m ∈ sessionMessages exampleStore e.session_id,
            m.timestamp = e.last_message_at))
    ∧ (∀ e ∈ sessionListView exampleStore,
        (exampleStore.messages.filter
            (fun m => m.session_id == some e.session_id && m.role == "user")
            = [] →
          e.title = "New Chat")
        ∧ ∀ u us, exampleStore.messages.filter
            (fun m => m.session_id == some e.session_id && m.role == "user")
            = u :: us →
          e.title = takeChars u.content 50
            ++ (if 50 < u.content.length then "..." else ""))) :=
  ⟨by decide, session_listing_correct exampleStore (by decide)⟩

end Chatbot
